import Mathlib

/-!
Verification of the atmosphere density-profile module (MCEq/density_profiles.py).

The CORSIKA-style layered-exponential atmosphere is embedded shallowly:
the five per-layer coefficient arrays `_aatm, _batm, _catm, _thickl, _hlay`
become real-valued vectors over `Fin 5`, the seven supported
(location, season) parameter sets become concrete values of `AtmParam`,
and the module functions `height2depth`, `depth2height`,
`corsika_get_density_jit` and `planar_rho_inv_jit` become functions on ℝ.
The caching facade `CascadeAtmosphere.set_theta` is embedded as a pure
state-transition function over an abstract profile type, with the
persistent pickle store modelled as a keyed optional map and I/O outcomes
supplied by an environment.
-/

set_option maxHeartbeats 1000000

/-- Parameter record of `CorsikaAtmosphere`: the 5x5 array `_atm_param`
storing `_aatm, _batm, _catm, _thickl, _hlay` for each of the 5 layers. -/
structure AtmParam where
  aatm : Fin 5 → ℝ
  batm : Fin 5 → ℝ
  catm : Fin 5 → ℝ
  thickl : Fin 5 → ℝ
  hlay : Fin 5 → ℝ

/-- Layer coefficients aatm of the USStd CORSIKA parameter set. -/
def usStd_aatm : Fin 5 → ℝ
  | 0 => (-186.5562)
  | 1 => (-94.919)
  | 2 => 0.61289
  | 3 => 0.0
  | 4 => 0.01128292

/-- Layer coefficients batm of the USStd CORSIKA parameter set. -/
def usStd_batm : Fin 5 → ℝ
  | 0 => 1222.6562
  | 1 => 1144.9069
  | 2 => 1305.5948
  | 3 => 540.1778
  | 4 => 1.0

/-- Layer coefficients catm of the USStd CORSIKA parameter set. -/
def usStd_catm : Fin 5 → ℝ
  | 0 => 994186.38
  | 1 => 878153.55
  | 2 => 636143.04
  | 3 => 772170
  | 4 => 1.0e9

/-- Layer coefficients thickl of the USStd CORSIKA parameter set. -/
def usStd_thickl : Fin 5 → ℝ
  | 0 => 1036.102549
  | 1 => 631.100309
  | 2 => 271.700230
  | 3 => 3.039494
  | 4 => 0.001280

/-- Layer coefficients hlay of the USStd CORSIKA parameter set. -/
def usStd_hlay : Fin 5 → ℝ
  | 0 => 0
  | 1 => 4.0e5
  | 2 => 1.0e6
  | 3 => 4.0e6
  | 4 => 1.0e7

/-- The USStd parameter set of CorsikaAtmosphere.init_parameters. -/
def usStd : AtmParam :=
  ⟨usStd_aatm, usStd_batm, usStd_catm, usStd_thickl, usStd_hlay⟩

/-- Layer coefficients aatm of the BK_USStd CORSIKA parameter set. -/
def bkUSStd_aatm : Fin 5 → ℝ
  | 0 => (-149.801663)
  | 1 => (-57.932486)
  | 2 => 0.63631894
  | 3 => 4.3545369e-4
  | 4 => 0.01128292

/-- Layer coefficients batm of the BK_USStd CORSIKA parameter set. -/
def bkUSStd_batm : Fin 5 → ℝ
  | 0 => 1183.6071
  | 1 => 1143.0425
  | 2 => 1322.9748
  | 3 => 655.69307
  | 4 => 1.0

/-- Layer coefficients catm of the BK_USStd CORSIKA parameter set. -/
def bkUSStd_catm : Fin 5 → ℝ
  | 0 => 954248.34
  | 1 => 800005.34
  | 2 => 629568.93
  | 3 => 737521.77
  | 4 => 1.0e9

/-- Layer coefficients thickl of the BK_USStd CORSIKA parameter set. -/
def bkUSStd_thickl : Fin 5 → ℝ
  | 0 => 1033.804941
  | 1 => 418.557770
  | 2 => 216.981635
  | 3 => 4.344861
  | 4 => 0.001280

/-- Layer coefficients hlay of the BK_USStd CORSIKA parameter set. -/
def bkUSStd_hlay : Fin 5 → ℝ
  | 0 => 0.0
  | 1 => 7.0e5
  | 2 => 1.14e6
  | 3 => 3.7e6
  | 4 => 1.0e7

/-- The BK_USStd parameter set of CorsikaAtmosphere.init_parameters. -/
def bkUSStd : AtmParam :=
  ⟨bkUSStd_aatm, bkUSStd_batm, bkUSStd_catm, bkUSStd_thickl, bkUSStd_hlay⟩

/-- Layer coefficients aatm of the Karlsruhe CORSIKA parameter set. -/
def karlsruhe_aatm : Fin 5 → ℝ
  | 0 => (-118.1277)
  | 1 => (-154.258)
  | 2 => 0.4191499
  | 3 => 5.4094056e-4
  | 4 => 0.01128292

/-- Layer coefficients batm of the Karlsruhe CORSIKA parameter set. -/
def karlsruhe_batm : Fin 5 → ℝ
  | 0 => 1173.9861
  | 1 => 1205.7625
  | 2 => 1386.7807
  | 3 => 555.8935
  | 4 => 1.0

/-- Layer coefficients catm of the Karlsruhe CORSIKA parameter set. -/
def karlsruhe_catm : Fin 5 → ℝ
  | 0 => 919546
  | 1 => 963267.92
  | 2 => 614315
  | 3 => 739059.6
  | 4 => 1.0e9

/-- Layer coefficients thickl of the Karlsruhe CORSIKA parameter set. -/
def karlsruhe_thickl : Fin 5 → ℝ
  | 0 => 1055.858707
  | 1 => 641.755364
  | 2 => 272.720974
  | 3 => 2.480633
  | 4 => 0.001280

/-- Layer coefficients hlay of the Karlsruhe CORSIKA parameter set. -/
def karlsruhe_hlay : Fin 5 → ℝ
  | 0 => 0.0
  | 1 => 4.0e5
  | 2 => 1.0e6
  | 3 => 4.0e6
  | 4 => 1.0e7

/-- The Karlsruhe parameter set of CorsikaAtmosphere.init_parameters. -/
def karlsruhe : AtmParam :=
  ⟨karlsruhe_aatm, karlsruhe_batm, karlsruhe_catm, karlsruhe_thickl, karlsruhe_hlay⟩

/-- Layer coefficients aatm of the SouthPoleDec CORSIKA parameter set. -/
def southPoleDec_aatm : Fin 5 → ℝ
  | 0 => (-128.601)
  | 1 => (-39.5548)
  | 2 => 1.13088
  | 3 => (-0.00264960)
  | 4 => 0.00192534

/-- Layer coefficients batm of the SouthPoleDec CORSIKA parameter set. -/
def southPoleDec_batm : Fin 5 → ℝ
  | 0 => 1139.99
  | 1 => 1073.82
  | 2 => 1052.96
  | 3 => 492.503
  | 4 => 1.0

/-- Layer coefficients catm of the SouthPoleDec CORSIKA parameter set. -/
def southPoleDec_catm : Fin 5 → ℝ
  | 0 => 861913
  | 1 => 744955
  | 2 => 675928
  | 3 => 829627
  | 4 => 5.8587010e9

/-- Layer coefficients thickl of the SouthPoleDec CORSIKA parameter set. -/
def southPoleDec_thickl : Fin 5 → ℝ
  | 0 => 1011.398804
  | 1 => 588.128367
  | 2 => 240.955360
  | 3 => 3.964546
  | 4 => 0.000218

/-- Layer coefficients hlay of the SouthPoleDec CORSIKA parameter set. -/
def southPoleDec_hlay : Fin 5 → ℝ
  | 0 => 0.0
  | 1 => 4.0e5
  | 2 => 1.0e6
  | 3 => 4.0e6
  | 4 => 1.0e7

/-- The SouthPoleDec parameter set of CorsikaAtmosphere.init_parameters. -/
def southPoleDec : AtmParam :=
  ⟨southPoleDec_aatm, southPoleDec_batm, southPoleDec_catm, southPoleDec_thickl, southPoleDec_hlay⟩

/-- Layer coefficients aatm of the SouthPoleJune CORSIKA parameter set. -/
def southPoleJune_aatm : Fin 5 → ℝ
  | 0 => (-163.331)
  | 1 => (-65.3713)
  | 2 => 0.402903
  | 3 => (-0.000479198)
  | 4 => 0.00188667

/-- Layer coefficients batm of the SouthPoleJune CORSIKA parameter set. -/
def southPoleJune_batm : Fin 5 → ℝ
  | 0 => 1183.70
  | 1 => 1108.06
  | 2 => 1424.02
  | 3 => 207.595
  | 4 => 1.0

/-- Layer coefficients catm of the SouthPoleJune CORSIKA parameter set. -/
def southPoleJune_catm : Fin 5 → ℝ
  | 0 => 875221
  | 1 => 753213
  | 2 => 545846
  | 3 => 793043
  | 4 => 5.9787908e9

/-- Layer coefficients thickl of the SouthPoleJune CORSIKA parameter set. -/
def southPoleJune_thickl : Fin 5 → ℝ
  | 0 => 1020.370363
  | 1 => 586.143464
  | 2 => 228.374393
  | 3 => 1.338258
  | 4 => 0.000214

/-- Layer coefficients hlay of the SouthPoleJune CORSIKA parameter set. -/
def southPoleJune_hlay : Fin 5 → ℝ
  | 0 => 0.0
  | 1 => 4.0e5
  | 2 => 1.0e6
  | 3 => 4.0e6
  | 4 => 1.0e7

/-- The SouthPoleJune parameter set of CorsikaAtmosphere.init_parameters. -/
def southPoleJune : AtmParam :=
  ⟨southPoleJune_aatm, southPoleJune_batm, southPoleJune_catm, southPoleJune_thickl, southPoleJune_hlay⟩

/-- Layer coefficients aatm of the PLSouthPoleJan CORSIKA parameter set. -/
def plSouthPoleJan_aatm : Fin 5 → ℝ
  | 0 => (-113.139)
  | 1 => (-7930635)
  | 2 => (-54.3888)
  | 3 => (-0.0)
  | 4 => 0.00421033

/-- Layer coefficients batm of the PLSouthPoleJan CORSIKA parameter set. -/
def plSouthPoleJan_batm : Fin 5 → ℝ
  | 0 => 1133.10
  | 1 => 1101.20
  | 2 => 1085.00
  | 3 => 1098.00
  | 4 => 1.0

/-- Layer coefficients catm of the PLSouthPoleJan CORSIKA parameter set. -/
def plSouthPoleJan_catm : Fin 5 → ℝ
  | 0 => 861730
  | 1 => 826340
  | 2 => 790950
  | 3 => 682800
  | 4 => 2.6798156e9

/-- Layer coefficients thickl of the PLSouthPoleJan CORSIKA parameter set. -/
def plSouthPoleJan_thickl : Fin 5 → ℝ
  | 0 => 1019.966898
  | 1 => 718.071682
  | 2 => 498.659703
  | 3 => 340.222344
  | 4 => 0.000478

/-- Layer coefficients hlay of the PLSouthPoleJan CORSIKA parameter set. -/
def plSouthPoleJan_hlay : Fin 5 → ℝ
  | 0 => 0.0
  | 1 => 2.67e5
  | 2 => 5.33e5
  | 3 => 8.0e5
  | 4 => 1.0e7

/-- The PLSouthPoleJan parameter set of CorsikaAtmosphere.init_parameters. -/
def plSouthPoleJan : AtmParam :=
  ⟨plSouthPoleJan_aatm, plSouthPoleJan_batm, plSouthPoleJan_catm, plSouthPoleJan_thickl, plSouthPoleJan_hlay⟩

/-- Layer coefficients aatm of the PLSouthPoleAug CORSIKA parameter set. -/
def plSouthPoleAug_aatm : Fin 5 → ℝ
  | 0 => (-59.0293)
  | 1 => (-21.5794)
  | 2 => (-7.14839)
  | 3 => 0.0
  | 4 => 0.000190175

/-- Layer coefficients batm of the PLSouthPoleAug CORSIKA parameter set. -/
def plSouthPoleAug_batm : Fin 5 → ℝ
  | 0 => 1079.0
  | 1 => 1071.90
  | 2 => 1182.0
  | 3 => 1647.1
  | 4 => 1.0

/-- Layer coefficients catm of the PLSouthPoleAug CORSIKA parameter set. -/
def plSouthPoleAug_catm : Fin 5 → ℝ
  | 0 => 764170
  | 1 => 699910
  | 2 => 635650
  | 3 => 551010
  | 4 => 59.329575e9

/-- Layer coefficients thickl of the PLSouthPoleAug CORSIKA parameter set. -/
def plSouthPoleAug_thickl : Fin 5 → ℝ
  | 0 => 1019.946057
  | 1 => 391.739652
  | 2 => 138.023515
  | 3 => 43.687992
  | 4 => 0.000022

/-- Layer coefficients hlay of the PLSouthPoleAug CORSIKA parameter set. -/
def plSouthPoleAug_hlay : Fin 5 → ℝ
  | 0 => 0.0
  | 1 => 6.67e5
  | 2 => 13.33e5
  | 3 => 2.0e6
  | 4 => 1.0e7

/-- The PLSouthPoleAug parameter set of CorsikaAtmosphere.init_parameters. -/
def plSouthPoleAug : AtmParam :=
  ⟨plSouthPoleAug_aatm, plSouthPoleAug_batm, plSouthPoleAug_catm, plSouthPoleAug_thickl, plSouthPoleAug_hlay⟩

/-- The supported (location, season) choices of
`CorsikaAtmosphere.init_parameters`. -/
inductive Loc
  | USStd
  | BK_USStd
  | Karlsruhe
  | SouthPoleDec
  | SouthPoleJune
  | PLSouthPoleJan
  | PLSouthPoleAug
deriving DecidableEq

/-- Dispatch of `init_parameters` on the supported (location, season) pairs. -/
def initParams : Loc → AtmParam
  | .USStd => usStd
  | .BK_USStd => bkUSStd
  | .Karlsruhe => karlsruhe
  | .SouthPoleDec => southPoleDec
  | .SouthPoleJune => southPoleJune
  | .PLSouthPoleJan => plSouthPoleJan
  | .PLSouthPoleAug => plSouthPoleAug

/-- Converts column/vertical depth to height: `CorsikaAtmosphere.depth2height`. -/
noncomputable def depth2height (p : AtmParam) (x_v : ℝ) : ℝ :=
  if x_v ≥ p.thickl 1 then p.catm 0 * Real.log (p.batm 0 / (x_v - p.aatm 0))
  else if x_v ≥ p.thickl 2 then p.catm 1 * Real.log (p.batm 1 / (x_v - p.aatm 1))
  else if x_v ≥ p.thickl 3 then p.catm 2 * Real.log (p.batm 2 / (x_v - p.aatm 2))
  else if x_v ≥ p.thickl 4 then p.catm 3 * Real.log (p.batm 3 / (x_v - p.aatm 3))
  else (p.aatm 4 - x_v) * p.catm 4

/-- Converts height to column/vertical depth: `CorsikaAtmosphere.height2depth`. -/
noncomputable def height2depth (p : AtmParam) (h_cm : ℝ) : ℝ :=
  if h_cm ≤ p.hlay 1 then p.aatm 0 + p.batm 0 * Real.exp (-h_cm / p.catm 0)
  else if h_cm ≤ p.hlay 2 then p.aatm 1 + p.batm 1 * Real.exp (-h_cm / p.catm 1)
  else if h_cm ≤ p.hlay 3 then p.aatm 2 + p.batm 2 * Real.exp (-h_cm / p.catm 2)
  else if h_cm ≤ p.hlay 4 then p.aatm 3 + p.batm 3 * Real.exp (-h_cm / p.catm 3)
  else p.aatm 4 - h_cm / p.catm 4

/-- Layer-selection loop of `corsika_get_density_jit`: starting from layer 0,
each index `i` with `not (h_cm <= hl[i])` overwrites `layer`, so the last
(highest) such index wins. -/
noncomputable def densityLayer (hl : Fin 5 → ℝ) (h_cm : ℝ) : Fin 5 :=
  (List.finRange 5).foldl (fun layer i => if ¬ (h_cm ≤ hl i) then i else layer) 0

/-- Optimized density calculation `corsika_get_density_jit`. -/
noncomputable def corsika_get_density_jit (h_cm : ℝ) (p : AtmParam) : ℝ :=
  if densityLayer p.hlay h_cm = 4 then p.batm 4 / p.catm 4
  else p.batm (densityLayer p.hlay h_cm) / p.catm (densityLayer p.hlay h_cm) *
    Real.exp (-h_cm / p.catm (densityLayer p.hlay h_cm))

/-- Layer-selection loop of `planar_rho_inv_jit`: the last index `i` with
`not (x_v >= t[i])` wins, starting from layer 0. -/
noncomputable def planarLayer (t : Fin 5 → ℝ) (x_v : ℝ) : Fin 5 :=
  (List.finRange 5).foldl (fun layer i => if ¬ (x_v ≥ t i) then i else layer) 0

/-- Optimized reciprocal density in planar approximation `planar_rho_inv_jit`. -/
noncomputable def planar_rho_inv_jit (X cos_theta : ℝ) (p : AtmParam) : ℝ :=
  if planarLayer p.thickl (X * cos_theta) = 4 then p.catm 4 / p.batm 4
  else p.catm (planarLayer p.thickl (X * cos_theta)) /
    (X * cos_theta - p.aatm (planarLayer p.thickl (X * cos_theta)))

/-- Moliere unit of air, `CascadeAtmosphere.moliere_air`, for the CORSIKA
parameterization. -/
noncomputable def moliere_air (p : AtmParam) (h_cm : ℝ) : ℝ :=
  9.3 / (corsika_get_density_jit h_cm p * 100)

/-- Height interval on which each branch of `height2depth` (and of the
density-layer loop) is active. -/
def heightLayer (p : AtmParam) : Fin 5 → Set ℝ
  | 0 => {h | h ≤ p.hlay 1}
  | 1 => {h | p.hlay 1 < h ∧ h ≤ p.hlay 2}
  | 2 => {h | p.hlay 2 < h ∧ h ≤ p.hlay 3}
  | 3 => {h | p.hlay 3 < h ∧ h ≤ p.hlay 4}
  | 4 => {h | p.hlay 4 < h}

/-- Depth interval on which each branch of `depth2height` is active. -/
def depthBracket (p : AtmParam) : Fin 5 → Set ℝ
  | 0 => {x | p.thickl 1 ≤ x}
  | 1 => {x | p.thickl 2 ≤ x ∧ x < p.thickl 1}
  | 2 => {x | p.thickl 3 ≤ x ∧ x < p.thickl 2}
  | 3 => {x | p.thickl 4 ≤ x ∧ x < p.thickl 3}
  | 4 => {x | x < p.thickl 4}

/-- Structural facts shared by all seven supported parameter sets. -/
structure AtmFacts (p : AtmParam) : Prop where
  b_pos : ∀ i, 0 < p.batm i
  c_pos : ∀ i, 0 < p.catm i
  hlay_lt : ∀ i : Fin 4, p.hlay i.castSucc < p.hlay i.succ
  thickl_lt : ∀ i : Fin 4, p.thickl i.succ < p.thickl i.castSucc
  a_lt_t : ∀ i : Fin 4, p.aatm i.castSucc < p.thickl i.succ

/-- All seven supported parameter sets satisfy the structural facts. -/
theorem atmFacts (loc : Loc) : AtmFacts (initParams loc) := by
  cases loc <;>
    refine ⟨fun i => ?_, fun i => ?_, fun i => ?_, fun i => ?_, fun i => ?_⟩ <;>
    fin_cases i <;>
    norm_num [initParams, usStd, bkUSStd, karlsruhe, southPoleDec, southPoleJune,
      plSouthPoleJan, plSouthPoleAug,
      usStd_aatm, usStd_batm, usStd_catm, usStd_thickl, usStd_hlay,
      bkUSStd_aatm, bkUSStd_batm, bkUSStd_catm, bkUSStd_thickl, bkUSStd_hlay,
      karlsruhe_aatm, karlsruhe_batm, karlsruhe_catm, karlsruhe_thickl, karlsruhe_hlay,
      southPoleDec_aatm, southPoleDec_batm, southPoleDec_catm, southPoleDec_thickl,
      southPoleDec_hlay,
      southPoleJune_aatm, southPoleJune_batm, southPoleJune_catm, southPoleJune_thickl,
      southPoleJune_hlay,
      plSouthPoleJan_aatm, plSouthPoleJan_batm, plSouthPoleJan_catm, plSouthPoleJan_thickl,
      plSouthPoleJan_hlay,
      plSouthPoleAug_aatm, plSouthPoleAug_batm, plSouthPoleAug_catm, plSouthPoleAug_thickl,
      plSouthPoleAug_hlay]

/-- Unfolding of the `corsika_get_density_jit` selection loop into its
if-chain: the highest tested index wins. -/
theorem densityLayer_eq (hl : Fin 5 → ℝ) (h_cm : ℝ) :
    densityLayer hl h_cm =
      if ¬ (h_cm ≤ hl 4) then 4 else if ¬ (h_cm ≤ hl 3) then 3
      else if ¬ (h_cm ≤ hl 2) then 2 else if ¬ (h_cm ≤ hl 1) then 1 else 0 := by
  have e : (List.finRange 5) = [0, 1, 2, 3, 4] := by decide
  rw [densityLayer, e]
  simp only [List.foldl]
  by_cases h4 : h_cm ≤ hl 4 <;> by_cases h3 : h_cm ≤ hl 3 <;>
    by_cases h2 : h_cm ≤ hl 2 <;> by_cases h1 : h_cm ≤ hl 1 <;>
    by_cases h0 : h_cm ≤ hl 0 <;>
    simp [h0, h1, h2, h3, h4]

/-- Unfolding of the `planar_rho_inv_jit` selection loop into its if-chain. -/
theorem planarLayer_eq (t : Fin 5 → ℝ) (x_v : ℝ) :
    planarLayer t x_v =
      if ¬ (x_v ≥ t 4) then 4 else if ¬ (x_v ≥ t 3) then 3
      else if ¬ (x_v ≥ t 2) then 2 else if ¬ (x_v ≥ t 1) then 1 else 0 := by
  have e : (List.finRange 5) = [0, 1, 2, 3, 4] := by decide
  rw [planarLayer, e]
  simp only [List.foldl]
  by_cases h4 : x_v ≥ t 4 <;> by_cases h3 : x_v ≥ t 3 <;>
    by_cases h2 : x_v ≥ t 2 <;> by_cases h1 : x_v ≥ t 1 <;>
    by_cases h0 : x_v ≥ t 0 <;>
    simp [h0, h1, h2, h3, h4]

/-- The index `l` is the highest layer index whose height boundary is
exceeded by the height (`l = 0` when no boundary above index 0 is exceeded). -/
def isHighestExceeded (hl : Fin 5 → ℝ) (h_cm : ℝ) (l : Fin 5) : Prop :=
  (l = 0 ∨ ¬ (h_cm ≤ hl l)) ∧ ∀ j : Fin 5, ¬ (h_cm ≤ hl j) → j ≤ l

/-- The index `l` is the largest layer index whose depth boundary lies
strictly above the vertical depth (`l = 0` when there is none). -/
def isHighestBelow (t : Fin 5 → ℝ) (x_v : ℝ) (l : Fin 5) : Prop :=
  (l = 0 ∨ x_v < t l) ∧ ∀ j : Fin 5, x_v < t j → j ≤ l

/-- The density selection loop picks the highest exceeded boundary. -/
theorem densityLayer_highest (hl : Fin 5 → ℝ) (h_cm : ℝ) :
    isHighestExceeded hl h_cm (densityLayer hl h_cm) := by
  rw [isHighestExceeded, densityLayer_eq]
  by_cases h4 : h_cm ≤ hl 4 <;> by_cases h3 : h_cm ≤ hl 3 <;>
    by_cases h2 : h_cm ≤ hl 2 <;> by_cases h1 : h_cm ≤ hl 1 <;>
    simp only [h1, h2, h3, h4, not_true, not_false_iff, if_true, if_false,
      ite_true, ite_false] <;>
    refine ⟨?_, fun j hj => ?_⟩ <;>
    first
      | exact Or.inl trivial
      | exact Or.inr trivial
      | exact Or.inl rfl
      | exact Or.inr (by assumption)
      | (fin_cases j <;>
          first
            | decide
            | (exact absurd (by assumption) hj)
            | (exact absurd hj (by assumption)))

/-- The planar selection loop picks the largest depth boundary above the
vertical depth. -/
theorem planarLayer_highest (t : Fin 5 → ℝ) (x_v : ℝ) :
    isHighestBelow t x_v (planarLayer t x_v) := by
  have hlt : ∀ i : Fin 5, ¬ (x_v ≥ t i) ↔ x_v < t i := fun i => not_le
  rw [isHighestBelow, planarLayer_eq]
  simp only [hlt]
  by_cases h4 : x_v < t 4 <;> by_cases h3 : x_v < t 3 <;>
    by_cases h2 : x_v < t 2 <;> by_cases h1 : x_v < t 1 <;>
    simp only [h1, h2, h3, h4, not_true, not_false_iff, if_true, if_false,
      ite_true, ite_false] <;>
    refine ⟨?_, fun j hj => ?_⟩ <;>
    first
      | exact Or.inl trivial
      | exact Or.inr trivial
      | exact Or.inl rfl
      | exact Or.inr (by assumption)
      | (fin_cases j <;>
          first
            | decide
            | (exact absurd (by assumption) hj)
            | (exact absurd hj (by assumption)))

/-- C2: for every supported parameter set and height, `corsika_get_density_jit`
selects the highest layer index whose height boundary satisfies
NOT (h ≤ hlay[l]) (index 0 when no boundary is exceeded), and returns
b[l]/c[l]·exp(−h/c[l]) for that layer, except that the top layer (index 4)
yields b[4]/c[4] with no exponential factor. -/
theorem c2_density_layer_formula (loc : Loc) (h_cm : ℝ) :
    isHighestExceeded (initParams loc).hlay h_cm
        (densityLayer (initParams loc).hlay h_cm) ∧
    corsika_get_density_jit h_cm (initParams loc) =
      (if densityLayer (initParams loc).hlay h_cm = 4 then
        (initParams loc).batm 4 / (initParams loc).catm 4
      else
        (initParams loc).batm (densityLayer (initParams loc).hlay h_cm) /
          (initParams loc).catm (densityLayer (initParams loc).hlay h_cm) *
          Real.exp (-h_cm / (initParams loc).catm
            (densityLayer (initParams loc).hlay h_cm))) := by
  exact ⟨densityLayer_highest _ _, rfl⟩

/-- C2 witness: at height 1.5e6 cm the USStd selection loop has passed the
boundaries of layers 1 and 2, so the selected layer is at least 2. -/
theorem c2_density_layer_formula_witness :
    (2 : Fin 5) ≤ densityLayer (initParams .USStd).hlay 1500000 := by
  refine (c2_density_layer_formula .USStd 1500000).1.2 2 ?_
  norm_num [initParams, usStd, usStd_hlay]

/-- C8: for every supported parameter set, slant depth and cosine,
`planar_rho_inv_jit` projects to the vertical depth x_v = X·cos θ, selects
the largest layer index l with x_v < thickl[l] (layer 0 when
x_v ≥ thickl[0]), and returns c[4]/b[4] for the top layer and
c[l]/(x_v − a[l]) otherwise. -/
theorem c8_planar_rho_inv_formula (loc : Loc) (X cos_theta : ℝ) :
    isHighestBelow (initParams loc).thickl (X * cos_theta)
        (planarLayer (initParams loc).thickl (X * cos_theta)) ∧
    planar_rho_inv_jit X cos_theta (initParams loc) =
      (if planarLayer (initParams loc).thickl (X * cos_theta) = 4 then
        (initParams loc).catm 4 / (initParams loc).batm 4
      else
        (initParams loc).catm (planarLayer (initParams loc).thickl (X * cos_theta)) /
          (X * cos_theta -
            (initParams loc).aatm
              (planarLayer (initParams loc).thickl (X * cos_theta)))) := by
  exact ⟨planarLayer_highest _ _, rfl⟩

/-- C8 witness: at slant depth 1e-6 and cos θ = 1/2 the USStd vertical depth
5e-7 lies below every depth boundary including thickl[4], so the selected
layer is 4. -/
theorem c8_planar_rho_inv_formula_witness :
    planarLayer (initParams .USStd).thickl ((1 / 1000000) * (1 / 2)) = 4 := by
  have h := (c8_planar_rho_inv_formula .USStd (1 / 1000000) (1 / 2)).1.2 4 ?_
  · exact le_antisymm (Fin.le_last _) h
  · norm_num [initParams, usStd, usStd_thickl]

/-- Positivity of the jit density for any parameter set with positive b and c
coefficients. -/
theorem density_pos (p : AtmParam) (hb : ∀ i, 0 < p.batm i)
    (hc : ∀ i, 0 < p.catm i) (h_cm : ℝ) :
    0 < corsika_get_density_jit h_cm p := by
  rw [corsika_get_density_jit]
  split_ifs
  · exact div_pos (hb 4) (hc 4)
  · exact mul_pos (div_pos (hb _) (hc _)) (Real.exp_pos _)

/-- C10: for every supported parameter set and every real height, including
negative heights, the jit density is defined and strictly positive, so the
division by `get_density(0)` in `moliere_air` and `nref_rel_air` never
divides by zero. -/
theorem c10_density_positive (loc : Loc) (h_cm : ℝ) :
    0 < corsika_get_density_jit h_cm (initParams loc) ∧
    corsika_get_density_jit 0 (initParams loc) ≠ 0 ∧
    corsika_get_density_jit 0 (initParams loc) * 100 ≠ 0 := by
  have hp : ∀ x : ℝ, 0 < corsika_get_density_jit x (initParams loc) :=
    fun x => density_pos _ (atmFacts loc).b_pos (atmFacts loc).c_pos x
  exact ⟨hp h_cm, (hp 0).ne', mul_ne_zero (hp 0).ne' (by norm_num)⟩

/-- Exact inversion of one exponential layer: the analytic `depth2height`
branch formula inverts the `height2depth` branch formula of the same layer. -/
theorem roundtrip_layer (a b c h : ℝ) (hb : 0 < b) (hc : 0 < c) :
    c * Real.log (b / (a + b * Real.exp (-h / c) - a)) = h := by
  have he : Real.exp (-h / c) = (Real.exp (h / c))⁻¹ := by
    rw [neg_div, Real.exp_neg]
  have hne : Real.exp (h / c) ≠ 0 := (Real.exp_pos _).ne'
  rw [add_sub_cancel_left, he]
  have hq : b / (b * (Real.exp (h / c))⁻¹) = Real.exp (h / c) := by
    field_simp
  rw [hq, Real.log_exp, mul_div_cancel₀ _ hc.ne']

/-- C1 (counterexample): for the supported parameter set
PL_SouthPole/January, the height 4.0e5 cm lies strictly inside layer 1
(boundaries 2.67e5 and 5.33e5), yet `depth2height (height2depth h)` differs
from `h`: the forward depth is negative (the layer-1 coefficient a[1] is
-7930635), so the inverse selects the top-layer branch and returns a value
above 1e16. -/
theorem c1_round_trip_counterexample :
    ((initParams .PLSouthPoleJan).hlay 1 < 400000 ∧
      (400000 : ℝ) < (initParams .PLSouthPoleJan).hlay 2) ∧
    depth2height (initParams .PLSouthPoleJan)
        (height2depth (initParams .PLSouthPoleJan) 400000) ≠ 400000 := by
  have hival : (initParams .PLSouthPoleJan).hlay 1 < 400000 ∧
      (400000 : ℝ) < (initParams .PLSouthPoleJan).hlay 2 := by
    constructor <;>
      norm_num [initParams, plSouthPoleJan, plSouthPoleJan_hlay]
  refine ⟨hival, ?_⟩
  have hx : height2depth (initParams .PLSouthPoleJan) 400000 =
      (-7930635 : ℝ) + 1101.20 * Real.exp (-400000 / 826340) := by
    rw [height2depth,
      if_neg (by norm_num [initParams, plSouthPoleJan, plSouthPoleJan_hlay]),
      if_pos (by norm_num [initParams, plSouthPoleJan, plSouthPoleJan_hlay])]
    norm_num [initParams, plSouthPoleJan, plSouthPoleJan_aatm, plSouthPoleJan_batm,
      plSouthPoleJan_catm]
  have e1 : Real.exp (-(400000 : ℝ) / 826340) ≤ 1 :=
    Real.exp_le_one_iff.mpr (by norm_num)
  have e0 : (0 : ℝ) < Real.exp (-(400000 : ℝ) / 826340) := Real.exp_pos _
  have hxle : height2depth (initParams .PLSouthPoleJan) 400000 ≤ -7929533 := by
    rw [hx]; push_cast; nlinarith [e1]
  have hd : depth2height (initParams .PLSouthPoleJan)
      (height2depth (initParams .PLSouthPoleJan) 400000) =
      ((initParams .PLSouthPoleJan).aatm 4 -
        height2depth (initParams .PLSouthPoleJan) 400000) *
        (initParams .PLSouthPoleJan).catm 4 := by
    rw [depth2height,
      if_neg (by
        have h0 : (0 : ℝ) < (initParams .PLSouthPoleJan).thickl 1 := by
          norm_num [initParams, plSouthPoleJan, plSouthPoleJan_thickl]
        push_neg
        linarith),
      if_neg (by
        have h0 : (0 : ℝ) < (initParams .PLSouthPoleJan).thickl 2 := by
          norm_num [initParams, plSouthPoleJan, plSouthPoleJan_thickl]
        push_neg
        linarith),
      if_neg (by
        have h0 : (0 : ℝ) < (initParams .PLSouthPoleJan).thickl 3 := by
          norm_num [initParams, plSouthPoleJan, plSouthPoleJan_thickl]
        push_neg
        linarith),
      if_neg (by
        have h0 : (0 : ℝ) < (initParams .PLSouthPoleJan).thickl 4 := by
          norm_num [initParams, plSouthPoleJan, plSouthPoleJan_thickl]
        push_neg
        linarith)]
  rw [hd]
  have ha4 : (initParams .PLSouthPoleJan).aatm 4 = 0.00421033 := by
    norm_num [initParams, plSouthPoleJan, plSouthPoleJan_aatm]
  have hc4 : (initParams .PLSouthPoleJan).catm 4 = 2.6798156e9 := by
    norm_num [initParams, plSouthPoleJan, plSouthPoleJan_catm]
  rw [ha4, hc4]
  have hbig : ((0.00421033 : ℝ) -
      height2depth (initParams .PLSouthPoleJan) 400000) * 2.6798156e9 >
      400000 := by
    have h7 : (0.00421033 : ℝ) -
        height2depth (initParams .PLSouthPoleJan) 400000 ≥ 7929533 := by
      linarith
    nlinarith
  exact ne_of_gt hbig

/-- C1 (amended): for every supported parameter set, the round trip
`depth2height (height2depth h) = h` holds exactly (over real arithmetic) for
every height strictly inside one of layers 0–3 whose forward depth lands in
the same layer's depth bracket, and for every height above the top boundary
whose forward depth lies below thickl[4].  (The unamended claim fails: near
several layer boundaries, throughout layer 1 of PL_SouthPole/January, and at
the base of the top layer, the forward depth crosses into the adjacent depth
bracket and the inverse selects a different layer.) -/
theorem c1_round_trip_amended :
    (∀ (loc : Loc) (h : ℝ),
      (initParams loc).hlay 0 < h → h < (initParams loc).hlay 1 →
      (initParams loc).thickl 1 ≤ height2depth (initParams loc) h →
      depth2height (initParams loc) (height2depth (initParams loc) h) = h) ∧
    (∀ (loc : Loc) (h : ℝ),
      (initParams loc).hlay 1 < h → h < (initParams loc).hlay 2 →
      (initParams loc).thickl 2 ≤ height2depth (initParams loc) h →
      height2depth (initParams loc) h < (initParams loc).thickl 1 →
      depth2height (initParams loc) (height2depth (initParams loc) h) = h) ∧
    (∀ (loc : Loc) (h : ℝ),
      (initParams loc).hlay 2 < h → h < (initParams loc).hlay 3 →
      (initParams loc).thickl 3 ≤ height2depth (initParams loc) h →
      height2depth (initParams loc) h < (initParams loc).thickl 2 →
      depth2height (initParams loc) (height2depth (initParams loc) h) = h) ∧
    (∀ (loc : Loc) (h : ℝ),
      (initParams loc).hlay 3 < h → h < (initParams loc).hlay 4 →
      (initParams loc).thickl 4 ≤ height2depth (initParams loc) h →
      height2depth (initParams loc) h < (initParams loc).thickl 3 →
      depth2height (initParams loc) (height2depth (initParams loc) h) = h) ∧
    (∀ (loc : Loc) (h : ℝ),
      (initParams loc).hlay 4 < h →
      height2depth (initParams loc) h < (initParams loc).thickl 4 →
      depth2height (initParams loc) (height2depth (initParams loc) h) = h) := by
  refine ⟨fun loc h h1 h2 hbr => ?_, fun loc h h1 h2 hbr1 hbr2 => ?_,
    fun loc h h1 h2 hbr1 hbr2 => ?_, fun loc h h1 h2 hbr1 hbr2 => ?_,
    fun loc h h1 hbr => ?_⟩
  · -- layer 0
    have F := atmFacts loc
    have hx : height2depth (initParams loc) h =
        (initParams loc).aatm 0 +
          (initParams loc).batm 0 * Real.exp (-h / (initParams loc).catm 0) := by
      rw [height2depth, if_pos h2.le]
    rw [hx] at hbr
    rw [hx, depth2height, if_pos hbr]
    exact roundtrip_layer _ _ _ _ (F.b_pos 0) (F.c_pos 0)
  · -- layer 1
    have F := atmFacts loc
    have hx : height2depth (initParams loc) h =
        (initParams loc).aatm 1 +
          (initParams loc).batm 1 * Real.exp (-h / (initParams loc).catm 1) := by
      rw [height2depth, if_neg (not_le.mpr h1), if_pos h2.le]
    rw [hx] at hbr1 hbr2
    rw [hx, depth2height, if_neg (not_le.mpr hbr2), if_pos hbr1]
    exact roundtrip_layer _ _ _ _ (F.b_pos 1) (F.c_pos 1)
  · -- layer 2
    have F := atmFacts loc
    have ha : (initParams loc).hlay 1 < h := lt_trans (F.hlay_lt 1) h1
    have hx : height2depth (initParams loc) h =
        (initParams loc).aatm 2 +
          (initParams loc).batm 2 * Real.exp (-h / (initParams loc).catm 2) := by
      rw [height2depth, if_neg (not_le.mpr ha), if_neg (not_le.mpr h1), if_pos h2.le]
    rw [hx] at hbr1 hbr2
    have ht1 : height2depth (initParams loc) h < (initParams loc).thickl 1 := by
      rw [hx]; exact lt_trans hbr2 (F.thickl_lt 1)
    rw [hx] at ht1
    rw [hx, depth2height, if_neg (not_le.mpr ht1), if_neg (not_le.mpr hbr2),
      if_pos hbr1]
    exact roundtrip_layer _ _ _ _ (F.b_pos 2) (F.c_pos 2)
  · -- layer 3
    have F := atmFacts loc
    have hb : (initParams loc).hlay 2 < h := lt_trans (F.hlay_lt 2) h1
    have ha : (initParams loc).hlay 1 < h := lt_trans (F.hlay_lt 1) hb
    have hx : height2depth (initParams loc) h =
        (initParams loc).aatm 3 +
          (initParams loc).batm 3 * Real.exp (-h / (initParams loc).catm 3) := by
      rw [height2depth, if_neg (not_le.mpr ha), if_neg (not_le.mpr hb),
        if_neg (not_le.mpr h1), if_pos h2.le]
    rw [hx] at hbr1 hbr2
    have ht2 : height2depth (initParams loc) h < (initParams loc).thickl 2 := by
      rw [hx]; exact lt_trans hbr2 (F.thickl_lt 2)
    have ht1 : height2depth (initParams loc) h < (initParams loc).thickl 1 := by
      exact lt_trans ht2 (F.thickl_lt 1)
    rw [hx] at ht1 ht2
    rw [hx, depth2height, if_neg (not_le.mpr ht1), if_neg (not_le.mpr ht2),
      if_neg (not_le.mpr hbr2), if_pos hbr1]
    exact roundtrip_layer _ _ _ _ (F.b_pos 3) (F.c_pos 3)
  · -- top layer, forward depth below thickl[4]
    have F := atmFacts loc
    have hc : (initParams loc).hlay 3 < h := lt_trans (F.hlay_lt 3) h1
    have hb : (initParams loc).hlay 2 < h := lt_trans (F.hlay_lt 2) hc
    have ha : (initParams loc).hlay 1 < h := lt_trans (F.hlay_lt 1) hb
    have hx : height2depth (initParams loc) h =
        (initParams loc).aatm 4 - h / (initParams loc).catm 4 := by
      rw [height2depth, if_neg (not_le.mpr ha), if_neg (not_le.mpr hb),
        if_neg (not_le.mpr hc), if_neg (not_le.mpr h1)]
    rw [hx] at hbr
    have ht3 : (initParams loc).aatm 4 - h / (initParams loc).catm 4 <
        (initParams loc).thickl 3 := lt_trans hbr (F.thickl_lt 3)
    have ht2 : (initParams loc).aatm 4 - h / (initParams loc).catm 4 <
        (initParams loc).thickl 2 := lt_trans ht3 (F.thickl_lt 2)
    have ht1 : (initParams loc).aatm 4 - h / (initParams loc).catm 4 <
        (initParams loc).thickl 1 := lt_trans ht2 (F.thickl_lt 1)
    rw [hx, depth2height, if_neg (not_le.mpr ht1), if_neg (not_le.mpr ht2),
      if_neg (not_le.mpr ht3), if_neg (not_le.mpr hbr)]
    rw [sub_sub_cancel]
    exact div_mul_cancel₀ _ (F.c_pos 4).ne'

/-- C1 witness: for USStd at height 2e5 cm, strictly inside layer 0, the
forward depth stays above thickl[1] and the round trip is exact. -/
theorem c1_round_trip_witness :
    depth2height (initParams .USStd) (height2depth (initParams .USStd) 200000) =
      200000 := by
  refine c1_round_trip_amended.1 .USStd 200000 ?_ ?_ ?_
  · norm_num [initParams, usStd, usStd_hlay]
  · norm_num [initParams, usStd, usStd_hlay]
  · have hx : height2depth (initParams .USStd) 200000 =
        (-186.5562 : ℝ) + 1222.6562 * Real.exp (-200000 / 994186.38) := by
      rw [height2depth, if_pos (by norm_num [initParams, usStd, usStd_hlay])]
      norm_num [initParams, usStd, usStd_aatm, usStd_batm, usStd_catm]
    have he := Real.add_one_le_exp (-(200000 : ℝ) / 994186.38)
    have ht : (initParams .USStd).thickl 1 = 631.100309 := by
      norm_num [initParams, usStd, usStd_thickl]
    rw [hx, ht]
    nlinarith [he]

/-- One exponential branch of `height2depth` is strictly decreasing. -/
theorem expBranch_lt (a b c x y : ℝ) (hb : 0 < b) (hc : 0 < c) (hxy : x < y) :
    a + b * Real.exp (-y / c) < a + b * Real.exp (-x / c) := by
  have he : Real.exp (-y / c) < Real.exp (-x / c) := by
    apply Real.exp_lt_exp.mpr
    apply div_lt_div_of_pos_right (by linarith) hc
  have := mul_lt_mul_of_pos_left he hb
  linarith

/-- One logarithmic branch of `depth2height` is strictly decreasing above the
pole `a`. -/
theorem logBranch_lt (a b c x y : ℝ) (hb : 0 < b) (hc : 0 < c)
    (hax : a < x) (hxy : x < y) :
    c * Real.log (b / (y - a)) < c * Real.log (b / (x - a)) := by
  have h1 : 0 < x - a := by linarith
  have h2 : 0 < y - a := by linarith
  have hd : b / (y - a) < b / (x - a) := by
    apply div_lt_div_of_pos_left hb h1
    linarith
  have hp : 0 < b / (y - a) := div_pos hb h2
  exact mul_lt_mul_of_pos_left (Real.log_lt_log hp hd) hc

/-- C4 (counterexample): for the supported parameter set
PL_SouthPole/January, `height2depth` is not strictly decreasing: the heights
5.3e5 < 5.4e5 straddle the layer-1/layer-2 boundary 5.33e5 and the depth
jumps up from below -7.9e6 (layer 1, with a[1] = -7930635) to above -55
(layer 2). -/
theorem c4_monotonicity_counterexample :
    (530000 : ℝ) < 540000 ∧
    height2depth (initParams .PLSouthPoleJan) 530000 <
      height2depth (initParams .PLSouthPoleJan) 540000 := by
  refine ⟨by norm_num, ?_⟩
  have hx : height2depth (initParams .PLSouthPoleJan) 530000 =
      (-7930635 : ℝ) + 1101.20 * Real.exp (-530000 / 826340) := by
    rw [height2depth,
      if_neg (by norm_num [initParams, plSouthPoleJan, plSouthPoleJan_hlay]),
      if_pos (by norm_num [initParams, plSouthPoleJan, plSouthPoleJan_hlay])]
    norm_num [initParams, plSouthPoleJan, plSouthPoleJan_aatm, plSouthPoleJan_batm,
      plSouthPoleJan_catm]
  have hy : height2depth (initParams .PLSouthPoleJan) 540000 =
      (-54.3888 : ℝ) + 1085.00 * Real.exp (-540000 / 790950) := by
    rw [height2depth,
      if_neg (by norm_num [initParams, plSouthPoleJan, plSouthPoleJan_hlay]),
      if_neg (by norm_num [initParams, plSouthPoleJan, plSouthPoleJan_hlay]),
      if_pos (by norm_num [initParams, plSouthPoleJan, plSouthPoleJan_hlay])]
    norm_num [initParams, plSouthPoleJan, plSouthPoleJan_aatm, plSouthPoleJan_batm,
      plSouthPoleJan_catm]
  rw [hx, hy]
  have e1 : Real.exp (-(530000 : ℝ) / 826340) ≤ 1 :=
    Real.exp_le_one_iff.mpr (by norm_num)
  have e0 : (0 : ℝ) < Real.exp (-(540000 : ℝ) / 790950) := Real.exp_pos _
  nlinarith [e1, e0]

/-- C4 (amended): for every supported parameter set, `height2depth` is
strictly decreasing on each height layer and `depth2height` is strictly
decreasing on each depth bracket — that is, within every single layer in
both directions.  (The unamended claim of strict monotonicity over the full
domain fails across layer boundaries, see the counterexample.) -/
theorem c4_monotone_amended (loc : Loc) (l : Fin 5) :
    StrictAntiOn (height2depth (initParams loc))
        (heightLayer (initParams loc) l) ∧
    StrictAntiOn (depth2height (initParams loc))
        (depthBracket (initParams loc) l) := by
  have F := atmFacts loc
  have hl12 : (initParams loc).hlay 1 < (initParams loc).hlay 2 := F.hlay_lt 1
  have hl23 : (initParams loc).hlay 2 < (initParams loc).hlay 3 := F.hlay_lt 2
  have hl34 : (initParams loc).hlay 3 < (initParams loc).hlay 4 := F.hlay_lt 3
  have ht21 : (initParams loc).thickl 2 < (initParams loc).thickl 1 := F.thickl_lt 1
  have ht32 : (initParams loc).thickl 3 < (initParams loc).thickl 2 := F.thickl_lt 2
  have ht43 : (initParams loc).thickl 4 < (initParams loc).thickl 3 := F.thickl_lt 3
  have hev0 : ∀ x : ℝ, x ≤ (initParams loc).hlay 1 →
      height2depth (initParams loc) x =
        (initParams loc).aatm 0 +
          (initParams loc).batm 0 * Real.exp (-x / (initParams loc).catm 0) :=
    fun x hx => by rw [height2depth, if_pos hx]
  have hev1 : ∀ x : ℝ, (initParams loc).hlay 1 < x → x ≤ (initParams loc).hlay 2 →
      height2depth (initParams loc) x =
        (initParams loc).aatm 1 +
          (initParams loc).batm 1 * Real.exp (-x / (initParams loc).catm 1) :=
    fun x hx1 hx2 => by rw [height2depth, if_neg (not_le.mpr hx1), if_pos hx2]
  have hev2 : ∀ x : ℝ, (initParams loc).hlay 2 < x → x ≤ (initParams loc).hlay 3 →
      height2depth (initParams loc) x =
        (initParams loc).aatm 2 +
          (initParams loc).batm 2 * Real.exp (-x / (initParams loc).catm 2) :=
    fun x hx1 hx2 => by
      rw [height2depth, if_neg (not_le.mpr (lt_trans hl12 hx1)),
        if_neg (not_le.mpr hx1), if_pos hx2]
  have hev3 : ∀ x : ℝ, (initParams loc).hlay 3 < x → x ≤ (initParams loc).hlay 4 →
      height2depth (initParams loc) x =
        (initParams loc).aatm 3 +
          (initParams loc).batm 3 * Real.exp (-x / (initParams loc).catm 3) :=
    fun x hx1 hx2 => by
      have hb : (initParams loc).hlay 2 < x := lt_trans hl23 hx1
      rw [height2depth, if_neg (not_le.mpr (lt_trans hl12 hb)),
        if_neg (not_le.mpr hb), if_neg (not_le.mpr hx1), if_pos hx2]
  have hev4 : ∀ x : ℝ, (initParams loc).hlay 4 < x →
      height2depth (initParams loc) x =
        (initParams loc).aatm 4 - x / (initParams loc).catm 4 :=
    fun x hx1 => by
      have hc : (initParams loc).hlay 3 < x := lt_trans hl34 hx1
      have hb : (initParams loc).hlay 2 < x := lt_trans hl23 hc
      rw [height2depth, if_neg (not_le.mpr (lt_trans hl12 hb)),
        if_neg (not_le.mpr hb), if_neg (not_le.mpr hc), if_neg (not_le.mpr hx1)]
  have dev0 : ∀ x : ℝ, (initParams loc).thickl 1 ≤ x →
      depth2height (initParams loc) x =
        (initParams loc).catm 0 *
          Real.log ((initParams loc).batm 0 / (x - (initParams loc).aatm 0)) :=
    fun x hx => by rw [depth2height, if_pos hx]
  have dev1 : ∀ x : ℝ, (initParams loc).thickl 2 ≤ x → x < (initParams loc).thickl 1 →
      depth2height (initParams loc) x =
        (initParams loc).catm 1 *
          Real.log ((initParams loc).batm 1 / (x - (initParams loc).aatm 1)) :=
    fun x hx1 hx2 => by rw [depth2height, if_neg (not_le.mpr hx2), if_pos hx1]
  have dev2 : ∀ x : ℝ, (initParams loc).thickl 3 ≤ x → x < (initParams loc).thickl 2 →
      depth2height (initParams loc) x =
        (initParams loc).catm 2 *
          Real.log ((initParams loc).batm 2 / (x - (initParams loc).aatm 2)) :=
    fun x hx1 hx2 => by
      rw [depth2height, if_neg (not_le.mpr (lt_trans hx2 ht21)),
        if_neg (not_le.mpr hx2), if_pos hx1]
  have dev3 : ∀ x : ℝ, (initParams loc).thickl 4 ≤ x → x < (initParams loc).thickl 3 →
      depth2height (initParams loc) x =
        (initParams loc).catm 3 *
          Real.log ((initParams loc).batm 3 / (x - (initParams loc).aatm 3)) :=
    fun x hx1 hx2 => by
      have hb : x < (initParams loc).thickl 2 := lt_trans hx2 ht32
      rw [depth2height, if_neg (not_le.mpr (lt_trans hb ht21)),
        if_neg (not_le.mpr hb), if_neg (not_le.mpr hx2), if_pos hx1]
  have dev4 : ∀ x : ℝ, x < (initParams loc).thickl 4 →
      depth2height (initParams loc) x =
        ((initParams loc).aatm 4 - x) * (initParams loc).catm 4 :=
    fun x hx1 => by
      have hc : x < (initParams loc).thickl 3 := lt_trans hx1 ht43
      have hb : x < (initParams loc).thickl 2 := lt_trans hc ht32
      rw [depth2height, if_neg (not_le.mpr (lt_trans hb ht21)),
        if_neg (not_le.mpr hb), if_neg (not_le.mpr hc), if_neg (not_le.mpr hx1)]
  fin_cases l
  · constructor
    · intro x hx y hy hxy
      rw [hev0 x hx, hev0 y hy]
      exact expBranch_lt _ _ _ _ _ (F.b_pos 0) (F.c_pos 0) hxy
    · intro x hx y hy hxy
      rw [dev0 x hx, dev0 y hy]
      exact logBranch_lt _ _ _ _ _ (F.b_pos 0) (F.c_pos 0)
        (lt_of_lt_of_le (F.a_lt_t 0) hx) hxy
  · constructor
    · intro x hx y hy hxy
      rw [hev1 x hx.1 hx.2, hev1 y hy.1 hy.2]
      exact expBranch_lt _ _ _ _ _ (F.b_pos 1) (F.c_pos 1) hxy
    · intro x hx y hy hxy
      rw [dev1 x hx.1 hx.2, dev1 y hy.1 hy.2]
      exact logBranch_lt _ _ _ _ _ (F.b_pos 1) (F.c_pos 1)
        (lt_of_lt_of_le (F.a_lt_t 1) hx.1) hxy
  · constructor
    · intro x hx y hy hxy
      rw [hev2 x hx.1 hx.2, hev2 y hy.1 hy.2]
      exact expBranch_lt _ _ _ _ _ (F.b_pos 2) (F.c_pos 2) hxy
    · intro x hx y hy hxy
      rw [dev2 x hx.1 hx.2, dev2 y hy.1 hy.2]
      exact logBranch_lt _ _ _ _ _ (F.b_pos 2) (F.c_pos 2)
        (lt_of_lt_of_le (F.a_lt_t 2) hx.1) hxy
  · constructor
    · intro x hx y hy hxy
      rw [hev3 x hx.1 hx.2, hev3 y hy.1 hy.2]
      exact expBranch_lt _ _ _ _ _ (F.b_pos 3) (F.c_pos 3) hxy
    · intro x hx y hy hxy
      rw [dev3 x hx.1 hx.2, dev3 y hy.1 hy.2]
      exact logBranch_lt _ _ _ _ _ (F.b_pos 3) (F.c_pos 3)
        (lt_of_lt_of_le (F.a_lt_t 3) hx.1) hxy
  · constructor
    · intro x hx y hy hxy
      rw [hev4 x hx, hev4 y hy]
      have hdiv : x / (initParams loc).catm 4 < y / (initParams loc).catm 4 :=
        div_lt_div_of_pos_right hxy (F.c_pos 4)
      linarith
    · intro x hx y hy hxy
      rw [dev4 x hx, dev4 y hy]
      exact mul_lt_mul_of_pos_right (by linarith) (F.c_pos 4)

/-- C4 witness: inside USStd layer 0, `height2depth` decreases from height
2e5 to 3e5, and `depth2height` decreases from depth 650 to 700. -/
theorem c4_monotone_witness :
    height2depth (initParams .USStd) 300000 <
      height2depth (initParams .USStd) 200000 ∧
    depth2height (initParams .USStd) 700 < depth2height (initParams .USStd) 650 := by
  constructor
  · refine (c4_monotone_amended .USStd 0).1 ?_ ?_ (by norm_num)
    · show (200000 : ℝ) ≤ (initParams .USStd).hlay 1
      norm_num [initParams, usStd, usStd_hlay]
    · show (300000 : ℝ) ≤ (initParams .USStd).hlay 1
      norm_num [initParams, usStd, usStd_hlay]
  · refine (c4_monotone_amended .USStd 0).2 ?_ ?_ (by norm_num)
    · show (initParams .USStd).thickl 1 ≤ 650
      norm_num [initParams, usStd, usStd_thickl]
    · show (initParams .USStd).thickl 1 ≤ 700
      norm_num [initParams, usStd, usStd_thickl]

/-- Entries stored under one cache key: association list from zenith angle in
degrees to the stored (X_surf, spline) value. -/
abbrev CacheEntry (V : Type) := List (ℚ × V)

/-- The persistent cache store (the pickled dictionary): a keyed optional map
from (class name, location, season) keys to per-angle entries. -/
abbrev PersistentStore (K V : Type) := K → Option (CacheEntry V)

/-- Outcome of `_load_cache`'s attempt to read the pickle file. -/
inductive LoadResult (K V : Type)
  | ok (s : PersistentStore K V)
  | ioFail
  | badData

/-- Errors that can escape a `set_theta` call: `IOError` raised by
`_dump_cache`, or a deserialization failure from `pickle.load` (which
`_load_cache` does not catch — it catches only `IOError`). -/
inductive CacheErr
  | ioError
  | unpickleError
deriving DecidableEq

/-- Environment of one `set_theta` call: the result of loading the store and
the outcome of the n-th dump attempt within the call. -/
structure CacheEnv (K V : Type) where
  loadResult : LoadResult K V
  dumpOk : ℕ → Bool

/-- Mutable facade state of `CascadeAtmosphere`: current zenith angle in
degrees, its radians image, and the active (X_surf, s_X2rho) pair. -/
structure FacadeState (R V : Type) where
  theta_deg : Option ℚ
  thrad : Option R
  prof : Option V
deriving DecidableEq

/-- Observable result of one `set_theta` call: final facade state, number of
spline builds performed, outcome of each attempted cache dump in order, the
store written by the last successful dump, and the escaped exception. -/
structure STResult (K R V : Type) where
  state : FacadeState R V
  builds : ℕ
  dumps : List Bool
  persisted : Option (PersistentStore K V)
  err : Option CacheErr

/-- Dictionary read `cache[key][angle]`. -/
def lookupAngle {V : Type} (e : CacheEntry V) (θ : ℚ) : Option V :=
  (e.find? (fun p => decide (p.1 = θ))).map Prod.snd

/-- Dictionary write `cache[key][angle] = v`. -/
def insertAngle {V : Type} (e : CacheEntry V) (θ : ℚ) (v : V) : CacheEntry V :=
  e.filter (fun p => decide (p.1 ≠ θ)) ++ [(θ, v)]

/-- Modelled from the spec: `_get_closest` from `MCEq.misc` (not under src/)
returns the stored angle nearest to the requested one. -/
def getClosest (θ : ℚ) (l : List ℚ) : Option ℚ :=
  l.argmin (fun a => |a - θ|)

/-- Dictionary write `cache[key] = e`. -/
def updateStore {K V : Type} [DecidableEq K] (s : PersistentStore K V) (k : K)
    (e : CacheEntry V) : PersistentStore K V :=
  Function.update s k (some e)

/-- Facade state right after `calculate_and_store` ran
`calculate_density_spline` at angle θ. -/
def builtState {R V : Type} (build : ℚ → V) (rad : ℚ → R) (θ : ℚ) :
    FacadeState R V :=
  ⟨some θ, some (rad θ), some (build θ)⟩

/-- The bare-`except` handler of `set_theta`: reset this key's entry to the
empty dict, rebuild the spline, store it, and attempt a dump; a dump failure
here escapes as IOError.  `nb` and `ds` are the builds and dump outcomes
already performed earlier in the same call. -/
def exceptRebuild {K R V : Type} [DecidableEq K] (build : ℚ → V) (rad : ℚ → R)
    (env : CacheEnv K V) (k : K) (cache : PersistentStore K V) (θ : ℚ)
    (nb : ℕ) (ds : List Bool) : STResult K R V :=
  let cache2 := updateStore cache k (insertAngle [] θ (build θ))
  if env.dumpOk ds.length then
    ⟨builtState build rad θ, nb + 1, ds ++ [true], some cache2, none⟩
  else
    ⟨builtState build rad θ, nb + 1, ds ++ [false], none, some .ioError⟩

/-- The cache-enabled branch of `set_theta`, operating on the loaded store:
if the key is present, try the nearest-angle lookup (snapping within 1
degree); on a tolerance miss build and store; any exception inside the try
block (empty entry, missing key, or a dump IOError) falls into the bare
except which resets the entry and rebuilds. -/
def goCache {K R V : Type} [DecidableEq K] (build : ℚ → V) (rad : ℚ → R)
    (env : CacheEnv K V) (k : K) (cache : PersistentStore K V)
    (θ : ℚ) : STResult K R V :=
  match cache k with
  | some e =>
    match getClosest θ (e.map Prod.fst) with
    | some closest =>
      if |closest - θ| < 1 then
        match lookupAngle e closest with
        | some v => ⟨⟨some closest, some (rad closest), some v⟩, 0, [], none, none⟩
        | none => exceptRebuild build rad env k cache θ 0 []
      else
        let cache1 := updateStore cache k (insertAngle e θ (build θ))
        if env.dumpOk 0 then ⟨builtState build rad θ, 1, [true], some cache1, none⟩
        else exceptRebuild build rad env k cache θ 1 [false]
    | none => exceptRebuild build rad env k cache θ 0 []
  | none =>
    let cache1 := updateStore cache k (insertAngle [] θ (build θ))
    if env.dumpOk 0 then ⟨builtState build rad θ, 1, [true], some cache1, none⟩
    else ⟨builtState build rad θ, 1, [false], none, some .ioError⟩

/-- The facade method `CascadeAtmosphere.set_theta` as a state transition:
an exact repeat of
the active angle short-circuits; with caching enabled the store is loaded
(an unreadable file acts as an empty store, a non-deserializable one raises),
and the cache branch runs; with caching disabled the spline is rebuilt
unconditionally. -/
def set_theta {K R V : Type} [DecidableEq K] (build : ℚ → V) (rad : ℚ → R)
    (use_atm_cache : Bool) (env : CacheEnv K V) (k : K)
    (σ : FacadeState R V) (θ : ℚ) : STResult K R V :=
  if σ.theta_deg = some θ then ⟨σ, 0, [], none, none⟩
  else if use_atm_cache then
    match env.loadResult with
    | .ok cache => goCache build rad env k cache θ
    | .ioFail => goCache build rad env k (fun _ => none) θ
    | .badData => ⟨σ, 0, [], none, some .unpickleError⟩
  else ⟨builtState build rad θ, 1, [], none, none⟩

/-- C3: with caching enabled, a successfully loaded store holding an entry
for the current key, a requested angle different from the active one, and a
nearest stored angle A within 1 degree, `set_theta` installs the stored
(X_surf, spline) pair for A without building any spline, and the active
angle (degrees and radians) afterwards is A, the stored angle, not the
requested one. -/
theorem c3_cache_snap {K R V : Type} [DecidableEq K] (build : ℚ → V)
    (rad : ℚ → R) (env : CacheEnv K V) (k : K) (σ : FacadeState R V)
    (θ A : ℚ) (s : PersistentStore K V) (e : CacheEntry V) (v : V)
    (hne : σ.theta_deg ≠ some θ)
    (hload : env.loadResult = .ok s)
    (hkey : s k = some e)
    (hA : getClosest θ (e.map Prod.fst) = some A)
    (htol : |A - θ| < 1)
    (hv : lookupAngle e A = some v) :
    set_theta build rad true env k σ θ =
      ⟨⟨some A, some (rad A), some v⟩, 0, [], none, none⟩ := by
  rw [set_theta, if_neg hne, if_pos rfl, hload]
  show goCache build rad env k s θ = _
  simp only [goCache, hkey, hA, hv]
  rw [if_pos htol]

/-- C3 witness: with a store holding angle 30 under the key, requesting 30.5
serves the stored pair for 30 and the served angle is 30. -/
theorem c3_cache_snap_witness :
    set_theta (K := Bool) (R := ℚ) (V := ℚ) (fun _ => 0) (fun q => q) true
        ⟨.ok (fun _ => some [(30, 7)]), fun _ => true⟩ false
        ⟨none, none, none⟩ (61 / 2) =
      ⟨⟨some 30, some 30, some 7⟩, 0, [], none, none⟩ := by
  refine c3_cache_snap (fun _ => 0) (fun q => q)
      ⟨.ok (fun _ => some [(30, 7)]), fun _ => true⟩ false ⟨none, none, none⟩
      (61 / 2) 30 (fun _ => some [(30, 7)]) [(30, 7)] 7 (by simp) rfl rfl ?_ ?_ ?_
  · rw [getClosest]
    simp only [List.map]
    exact List.argmin_singleton
  · rw [abs_sub_lt_iff]
    constructor <;> norm_num
  · rw [lookupAngle]
    simp

/-- After a successful `goCache` run, either the active angle equals the
requested one, or the run was a cache snap and re-running `goCache` in the
same environment reproduces the final state with no build, no dump and no
error. -/
theorem goCache_repeat {K R V : Type} [DecidableEq K] (build : ℚ → V)
    (rad : ℚ → R) (env : CacheEnv K V) (k : K) (cache : PersistentStore K V)
    (θ : ℚ) (res : STResult K R V)
    (hrun : goCache build rad env k cache θ = res) (hok : res.err = none) :
    res.state.theta_deg = some θ ∨
    (res.state.theta_deg ≠ some θ ∧
      goCache build rad env k cache θ = ⟨res.state, 0, [], none, none⟩) := by
  rcases hk : cache k with _ | e
  · simp only [goCache, hk] at hrun
    by_cases hd : env.dumpOk 0 = true
    · rw [if_pos hd] at hrun
      left; rw [← hrun]; rfl
    · rw [if_neg hd] at hrun
      rw [← hrun] at hok; simp at hok
  · simp only [goCache, hk] at hrun
    rcases hA : getClosest θ (e.map Prod.fst) with _ | A
    · simp only [hA, exceptRebuild] at hrun
      by_cases hd : env.dumpOk ([] : List Bool).length = true
      · rw [if_pos hd] at hrun
        left; rw [← hrun]; rfl
      · rw [if_neg hd] at hrun
        rw [← hrun] at hok; simp at hok
    · simp only [hA] at hrun
      by_cases htol : |A - θ| < 1
      · rw [if_pos htol] at hrun
        rcases hv : lookupAngle e A with _ | v
        · simp only [hv, exceptRebuild] at hrun
          by_cases hd : env.dumpOk ([] : List Bool).length = true
          · rw [if_pos hd] at hrun
            left; rw [← hrun]; rfl
          · rw [if_neg hd] at hrun
            rw [← hrun] at hok; simp at hok
        · simp only [hv] at hrun
          by_cases hAz : A = θ
          · left; rw [← hrun]; simp [hAz]
          · right
            refine ⟨by rw [← hrun]; simp [hAz], ?_⟩
            rw [← hrun]
            simp only [goCache, hk, hA, hv, if_pos htol]
      · rw [if_neg htol] at hrun
        by_cases hd : env.dumpOk 0 = true
        · simp only [hd, if_true] at hrun
          left; rw [← hrun]; rfl
        · simp only [hd, Bool.false_eq_true, if_false, exceptRebuild] at hrun
          by_cases hd1 : env.dumpOk ([false] : List Bool).length = true
          · rw [if_pos hd1] at hrun
            left; rw [← hrun]; rfl
          · rw [if_neg hd1] at hrun
            rw [← hrun] at hok; simp at hok

/-- C5: calling `set_theta` twice consecutively with the same angle performs
no recomputation on the second call: after any successful first call, the
second call builds no spline, attempts no dump, raises nothing, and leaves
theta_deg, thrad and the active (X_surf, spline) pair exactly as the first
call left them. -/
theorem c5_set_theta_idempotent {K R V : Type} [DecidableEq K]
    (build : ℚ → V) (rad : ℚ → R) (flag : Bool) (env : CacheEnv K V) (k : K)
    (σ : FacadeState R V) (θ : ℚ) (res : STResult K R V)
    (hrun : set_theta build rad flag env k σ θ = res)
    (hok : res.err = none) :
    set_theta build rad flag env k res.state θ = ⟨res.state, 0, [], none, none⟩ := by
  rw [set_theta] at hrun
  by_cases h0 : σ.theta_deg = some θ
  · rw [if_pos h0] at hrun
    rw [← hrun]
    show set_theta build rad flag env k σ θ = ⟨σ, 0, [], none, none⟩
    rw [set_theta, if_pos h0]
  · rw [if_neg h0] at hrun
    cases flag with
    | false =>
      simp only [Bool.false_eq_true, if_false] at hrun
      rw [← hrun]
      show set_theta build rad false env k (builtState build rad θ) θ = _
      rw [set_theta,
        if_pos (show (builtState build rad θ).theta_deg = some θ from rfl)]
    | true =>
      simp only [if_true] at hrun
      rcases hload : env.loadResult with s | _ | _ <;> rw [hload] at hrun
      · -- load succeeded
        simp only [] at hrun
        rcases goCache_repeat build rad env k s θ res hrun hok with hsame | ⟨hne2, hsec⟩
        · rw [set_theta, if_pos hsame]
        · rw [set_theta, if_neg hne2, if_pos rfl, hload]
          exact hsec
      · -- load IOError: empty store
        simp only [] at hrun
        rcases goCache_repeat build rad env k (fun _ => none) θ res hrun hok with
          hsame | ⟨hne2, hsec⟩
        · rw [set_theta, if_pos hsame]
        · rw [set_theta, if_neg hne2, if_pos rfl, hload]
          exact hsec
      · -- deserialization failure: excluded by success of the first call
        rw [← hrun] at hok
        simp at hok

/-- C5 witness: a cache-disabled call at angle 10 followed by a repeat call
leaves the state untouched and builds nothing. -/
theorem c5_set_theta_idempotent_witness :
    set_theta (K := Bool) (R := ℚ) (V := ℚ) (fun _ => 37) (fun q => q) false
        ⟨.ok (fun _ => none), fun _ => true⟩ false
        (⟨some 10, some 10, some 37⟩ : FacadeState ℚ ℚ) 10 =
      ⟨⟨some 10, some 10, some 37⟩, 0, [], none, none⟩ := by
  have h1 : set_theta (K := Bool) (R := ℚ) (V := ℚ) (fun _ => 37) (fun q => q)
      false ⟨.ok (fun _ => none), fun _ => true⟩ false
      (⟨none, none, none⟩ : FacadeState ℚ ℚ) 10 =
      ⟨⟨some 10, some 10, some 37⟩, 1, [], none, none⟩ := by
    rw [set_theta, if_neg (by simp)]
    rfl
  exact c5_set_theta_idempotent (fun _ => 37) (fun q => q) false
    ⟨.ok (fun _ => none), fun _ => true⟩ false ⟨none, none, none⟩ 10
    ⟨⟨some 10, some 10, some 37⟩, 1, [], none, none⟩ h1 rfl

/-- When every dump attempt fails, a `goCache` run either performed no build
(a cache snap) or ends with an escaped IOError while the freshly built
profile is installed in the facade state. -/
theorem goCache_dump_fail {K R V : Type} [DecidableEq K] (build : ℚ → V)
    (rad : ℚ → R) (env : CacheEnv K V) (k : K) (cache : PersistentStore K V)
    (θ : ℚ) (res : STResult K R V)
    (hrun : goCache build rad env k cache θ = res)
    (hd : ∀ n, env.dumpOk n = false) :
    res.builds = 0 ∨
    (res.err = some CacheErr.ioError ∧ res.state.prof = some (build θ) ∧
      res.state.theta_deg = some θ) := by
  rcases hk : cache k with _ | e
  · simp only [goCache, hk, hd 0, Bool.false_eq_true, if_false] at hrun
    right; rw [← hrun]; exact ⟨rfl, rfl, rfl⟩
  · simp only [goCache, hk] at hrun
    rcases hA : getClosest θ (e.map Prod.fst) with _ | A
    · simp only [hA, exceptRebuild] at hrun
      rw [if_neg (by simp [hd])] at hrun
      right; rw [← hrun]; exact ⟨rfl, rfl, rfl⟩
    · simp only [hA] at hrun
      by_cases htol : |A - θ| < 1
      · rw [if_pos htol] at hrun
        rcases hv : lookupAngle e A with _ | v
        · simp only [hv, exceptRebuild] at hrun
          rw [if_neg (by simp [hd])] at hrun
          right; rw [← hrun]; exact ⟨rfl, rfl, rfl⟩
        · simp only [hv] at hrun
          left; rw [← hrun]
      · rw [if_neg htol] at hrun
        simp only [hd 0, Bool.false_eq_true, if_false, exceptRebuild] at hrun
        rw [if_neg (by simp [hd])] at hrun
        right; rw [← hrun]; exact ⟨rfl, rfl, rfl⟩

/-- C6 (amended): when the cache save fails persistently (every dump attempt
in the call raises IOError), any cache-enabled `set_theta` call that
triggers a fresh spline build surfaces a hard IOError to its caller, and the
freshly computed profile is still installed in the facade state.  (The
unamended claim fails: on the tolerance-miss path the first dump failure is
swallowed by the bare except, the profile is rebuilt, and if the retried
dump succeeds the call returns successfully — see the counterexample.) -/
theorem c6_dump_failure_amended {K R V : Type} [DecidableEq K]
    (build : ℚ → V) (rad : ℚ → R) (env : CacheEnv K V) (k : K)
    (σ : FacadeState R V) (θ : ℚ) (res : STResult K R V)
    (hd : ∀ n, env.dumpOk n = false)
    (hrun : set_theta build rad true env k σ θ = res)
    (hb : 1 ≤ res.builds) :
    res.err = some CacheErr.ioError ∧ res.state.prof = some (build θ) ∧
      res.state.theta_deg = some θ := by
  rw [set_theta] at hrun
  by_cases h0 : σ.theta_deg = some θ
  · rw [if_pos h0] at hrun
    rw [← hrun] at hb; simp at hb
  · rw [if_neg h0] at hrun
    simp only [if_true] at hrun
    rcases hload : env.loadResult with s | _ | _ <;> rw [hload] at hrun <;>
      simp only [] at hrun
    · rcases goCache_dump_fail build rad env k s θ res hrun hd with h | h
      · rw [h] at hb; omega
      · exact h
    · rcases goCache_dump_fail build rad env k (fun _ => none) θ res hrun hd with
        h | h
      · rw [h] at hb; omega
      · exact h
    · rw [← hrun] at hb; simp at hb

/-- C6 (counterexample): a transient save failure is silently swallowed.
With a stored angle 10 and a request for 50 (tolerance miss), the first dump
attempt fails with IOError, the bare except catches it, wipes the key's
entry, rebuilds the same spline, and the second dump succeeds: the call
returns with no error at all, even though a save of the freshly computed
profile failed — contradicting that such a failure is always surfaced as a
hard IOError. -/
theorem c6_dump_failure_counterexample :
    (set_theta (K := Bool) (R := ℚ) (V := ℚ) (fun _ => 0) (fun q => q) true
        ⟨.ok (fun _ => some [(10, 5)]), fun n => decide (n = 1)⟩ false
        ⟨none, none, none⟩ 50).builds = 2 ∧
    (set_theta (K := Bool) (R := ℚ) (V := ℚ) (fun _ => 0) (fun q => q) true
        ⟨.ok (fun _ => some [(10, 5)]), fun n => decide (n = 1)⟩ false
        ⟨none, none, none⟩ 50).dumps = [false, true] ∧
    (set_theta (K := Bool) (R := ℚ) (V := ℚ) (fun _ => 0) (fun q => q) true
        ⟨.ok (fun _ => some [(10, 5)]), fun n => decide (n = 1)⟩ false
        ⟨none, none, none⟩ 50).err = none := by
  have hA : getClosest (50 : ℚ) [(10 : ℚ)] = some 10 := by
    rw [getClosest]; exact List.argmin_singleton
  have htol : ¬ |(10 : ℚ) - 50| < 1 := by
    intro h
    rw [abs_sub_lt_iff] at h
    norm_num at h
  have hrun : set_theta (K := Bool) (R := ℚ) (V := ℚ) (fun _ => 0) (fun q => q)
      true ⟨.ok (fun _ => some [(10, 5)]), fun n => decide (n = 1)⟩ false
      ⟨none, none, none⟩ 50 =
      ⟨⟨some 50, some 50, some 0⟩, 2, [false, true],
        some (updateStore (fun _ => some [(10, 5)]) false
          (insertAngle [] 50 0)), none⟩ := by
    rw [set_theta, if_neg (by simp), if_pos rfl]
    show goCache (K := Bool) (R := ℚ) (V := ℚ) (fun _ => 0) (fun q => q)
      ⟨.ok (fun _ => some [(10, 5)]), fun n => decide (n = 1)⟩ false
      (fun _ => some [(10, 5)]) 50 = _
    simp only [goCache, List.map, hA, if_neg htol, exceptRebuild]
    norm_num [builtState]
  rw [hrun]
  exact ⟨rfl, rfl, rfl⟩

/-- C6 witness: with a key-less store and a dump that always fails, the
single-build path surfaces the IOError and the built profile stays
installed. -/
theorem c6_dump_failure_amended_witness :
    (⟨⟨some 50, some 50, some 0⟩, 1, [false], none, some CacheErr.ioError⟩ :
        STResult Bool ℚ ℚ).err = some CacheErr.ioError ∧
    (⟨⟨some 50, some 50, some 0⟩, 1, [false], none, some CacheErr.ioError⟩ :
        STResult Bool ℚ ℚ).state.prof = some 0 ∧
    (⟨⟨some 50, some 50, some 0⟩, 1, [false], none, some CacheErr.ioError⟩ :
        STResult Bool ℚ ℚ).state.theta_deg = some 50 :=
  c6_dump_failure_amended (fun _ => 0) (fun q => q)
    ⟨.ok (fun _ => none), fun _ => false⟩ false ⟨none, none, none⟩ 50
    ⟨⟨some 50, some 50, some 0⟩, 1, [false], none, some CacheErr.ioError⟩
    (fun _ => rfl) (by rw [set_theta, if_neg (by simp), if_pos rfl]; rfl)
    (by norm_num)

/-- C7 (counterexample): a persistent store that cannot be deserialized is
not treated as an empty store — `_load_cache` catches only IOError, so the
deserialization failure from `pickle.load` escapes to the caller of
`set_theta` instead of falling back to a fresh build. -/
theorem c7_load_failure_counterexample :
    (set_theta (K := Bool) (R := ℚ) (V := ℚ) (fun _ => 0) (fun q => q) true
        ⟨.badData, fun _ => true⟩ false ⟨none, none, none⟩ 50).err =
      some CacheErr.unpickleError ∧
    (set_theta (K := Bool) (R := ℚ) (V := ℚ) (fun _ => 0) (fun q => q) true
        ⟨.badData, fun _ => true⟩ false ⟨none, none, none⟩ 50).builds = 0 := by
  have hrun : set_theta (K := Bool) (R := ℚ) (V := ℚ) (fun _ => 0) (fun q => q)
      true ⟨.badData, fun _ => true⟩ false ⟨none, none, none⟩ 50 =
      ⟨⟨none, none, none⟩, 0, [], none, some CacheErr.unpickleError⟩ := by
    rw [set_theta, if_neg (by simp), if_pos rfl]
  rw [hrun]
  exact ⟨rfl, rfl⟩

/-- C7 (amended): a load failure raising IOError (missing or unreadable
file) makes a cache-enabled `set_theta` proceed exactly as if the store were
empty, and when the load succeeds no deserialization error can reach the
caller; but a store that cannot be deserialized raises out of the load step
(only IOError is caught there), so the claim holds only for IOError-class
load failures. -/
theorem c7_load_failure_amended {K R V : Type} [DecidableEq K]
    (build : ℚ → V) (rad : ℚ → R) (env : CacheEnv K V) (k : K)
    (σ : FacadeState R V) (θ : ℚ) :
    (env.loadResult = .ioFail →
      set_theta build rad true env k σ θ =
        set_theta build rad true ⟨.ok (fun _ => none), env.dumpOk⟩ k σ θ) ∧
    (∀ s : PersistentStore K V, env.loadResult = .ok s →
      (set_theta build rad true env k σ θ).err ≠ some CacheErr.unpickleError) := by
  constructor
  · intro hload
    rw [set_theta, set_theta]
    by_cases h0 : σ.theta_deg = some θ
    · rw [if_pos h0, if_pos h0]
    · rw [if_neg h0, if_neg h0, if_pos rfl, if_pos rfl, hload]
      rfl
  · intro s hload herr
    rw [set_theta] at herr
    by_cases h0 : σ.theta_deg = some θ
    · rw [if_pos h0] at herr
      simp at herr
    · rw [if_neg h0] at herr
      simp only [if_true] at herr
      rw [hload] at herr
      simp only [] at herr
      rcases hk : s k with _ | e
      · simp only [goCache, hk] at herr
        by_cases hd : env.dumpOk 0 = true
        · rw [if_pos hd] at herr; simp at herr
        · rw [if_neg hd] at herr; simp at herr
      · simp only [goCache, hk] at herr
        rcases hA : getClosest θ (e.map Prod.fst) with _ | A
        · simp only [hA, exceptRebuild] at herr
          by_cases hd : env.dumpOk ([] : List Bool).length = true
          · rw [if_pos hd] at herr; simp at herr
          · rw [if_neg hd] at herr; simp at herr
        · simp only [hA] at herr
          by_cases htol : |A - θ| < 1
          · rw [if_pos htol] at herr
            rcases hv : lookupAngle e A with _ | v
            · simp only [hv, exceptRebuild] at herr
              by_cases hd : env.dumpOk ([] : List Bool).length = true
              · rw [if_pos hd] at herr; simp at herr
              · rw [if_neg hd] at herr; simp at herr
            · simp only [hv] at herr; simp at herr
          · rw [if_neg htol] at herr
            by_cases hd : env.dumpOk 0 = true
            · simp only [hd, if_true] at herr; simp at herr
            · simp only [hd, Bool.false_eq_true, if_false, exceptRebuild] at herr
              by_cases hd1 : env.dumpOk ([false] : List Bool).length = true
              · rw [if_pos hd1] at herr; simp at herr
              · rw [if_neg hd1] at herr; simp at herr

/-- C7 witness: a load IOError behaves exactly as an empty store for a
concrete cache-enabled call. -/
theorem c7_load_failure_amended_witness :
    set_theta (K := Bool) (R := ℚ) (V := ℚ) (fun _ => 0) (fun q => q) true
        ⟨.ioFail, fun _ => true⟩ false ⟨none, none, none⟩ 50 =
      set_theta (K := Bool) (R := ℚ) (V := ℚ) (fun _ => 0) (fun q => q) true
        ⟨.ok (fun _ => none), fun _ => true⟩ false ⟨none, none, none⟩ 50 :=
  (c7_load_failure_amended (fun _ => 0) (fun q => q) ⟨.ioFail, fun _ => true⟩
    false ⟨none, none, none⟩ 50).1 rfl

/-- Pairwise spacing of at least one degree between the angles stored in one
cache entry. -/
def Spaced {V : Type} (e : CacheEntry V) : Prop :=
  List.Pairwise (fun p q : ℚ × V => 1 ≤ |p.1 - q.1|) e

/-- Every entry of the persistent store keeps its stored angles at least one
degree apart. -/
def StoreSpaced {K V : Type} (s : PersistentStore K V) : Prop :=
  ∀ k e, s k = some e → Spaced e

/-- Inserting an angle at distance at least one degree from every stored
angle preserves the spacing of an entry. -/
theorem spaced_insert {V : Type} (e : CacheEntry V) (θ : ℚ) (v : V)
    (he : Spaced e) (hfar : ∀ p ∈ e, 1 ≤ |p.1 - θ|) :
    Spaced (insertAngle e θ v) := by
  rw [Spaced, insertAngle, List.pairwise_append]
  refine ⟨he.sublist (List.filter_sublist _), List.pairwise_singleton _ _, ?_⟩
  intro a ha b hb
  obtain rfl := List.mem_singleton.mp hb
  exact hfar a (List.mem_of_mem_filter ha)

/-- When the nearest stored angle is at distance at least one degree, every
stored angle is. -/
theorem far_of_argmin (θ A : ℚ) (l : List ℚ) (hA : getClosest θ l = some A)
    (htol : ¬ |A - θ| < 1) : ∀ a ∈ l, 1 ≤ |a - θ| := by
  intro a ha
  rw [getClosest] at hA
  have hmem : A ∈ l.argmin (fun a => |a - θ|) := Option.mem_def.mpr hA
  have hle := List.le_of_mem_argmin ha hmem
  have h1 : 1 ≤ |A - θ| := not_lt.mp htol
  linarith

/-- Updating one key with a spaced entry preserves the store invariant. -/
theorem storeSpaced_update {K V : Type} [DecidableEq K]
    (s : PersistentStore K V) (k : K) (e : CacheEntry V)
    (hs : StoreSpaced s) (he : Spaced e) : StoreSpaced (updateStore s k e) := by
  intro k' e' h'
  rw [updateStore] at h'
  by_cases hk : k' = k
  · subst hk
    rw [Function.update_same] at h'
    obtain rfl := Option.some.inj h'
    exact he
  · rw [Function.update_noteq hk] at h'
    exact hs k' e' h'

/-- The singleton entry written after a reset is spaced. -/
theorem spaced_singleton {V : Type} (θ : ℚ) (v : V) :
    Spaced (insertAngle ([] : CacheEntry V) θ v) := by
  have h : insertAngle ([] : CacheEntry V) θ v = [(θ, v)] := rfl
  rw [Spaced, h]
  exact List.pairwise_singleton _ _

/-- C9: `set_theta` never stores a new angle when a stored angle lies
strictly within one degree of the request, so every store it persists from a
store satisfying the spacing invariant satisfies it again: any two distinct
angles stored under one key differ by at least one degree.  Together with
the trivially spaced empty store this gives the invariant for every sequence
of calls starting from an empty persistent store. -/
theorem c9_spacing_preserved {K R V : Type} [DecidableEq K]
    (build : ℚ → V) (rad : ℚ → R) (env : CacheEnv K V) (k : K)
    (σ : FacadeState R V) (θ : ℚ) (s s' : PersistentStore K V)
    (hs : StoreSpaced s)
    (hload : env.loadResult = .ok s)
    (hp : (set_theta build rad true env k σ θ).persisted = some s') :
    StoreSpaced s' := by
  rw [set_theta] at hp
  by_cases h0 : σ.theta_deg = some θ
  · rw [if_pos h0] at hp
    simp at hp
  · rw [if_neg h0] at hp
    simp only [if_true] at hp
    rw [hload] at hp
    simp only [] at hp
    rcases hk : s k with _ | e
    · simp only [goCache, hk] at hp
      by_cases hd : env.dumpOk 0 = true
      · rw [if_pos hd] at hp
        obtain rfl := Option.some.inj hp
        exact storeSpaced_update _ _ _ hs (spaced_singleton _ _)
      · rw [if_neg hd] at hp
        simp at hp
    · simp only [goCache, hk] at hp
      rcases hA : getClosest θ (e.map Prod.fst) with _ | A
      · simp only [hA, exceptRebuild] at hp
        by_cases hd : env.dumpOk ([] : List Bool).length = true
        · rw [if_pos hd] at hp
          obtain rfl := Option.some.inj hp
          exact storeSpaced_update _ _ _ hs (spaced_singleton _ _)
        · rw [if_neg hd] at hp
          simp at hp
      · simp only [hA] at hp
        by_cases htol : |A - θ| < 1
        · rw [if_pos htol] at hp
          rcases hv : lookupAngle e A with _ | v
          · simp only [hv, exceptRebuild] at hp
            by_cases hd : env.dumpOk ([] : List Bool).length = true
            · rw [if_pos hd] at hp
              obtain rfl := Option.some.inj hp
              exact storeSpaced_update _ _ _ hs (spaced_singleton _ _)
            · rw [if_neg hd] at hp
              simp at hp
          · simp only [hv] at hp
            simp at hp
        · rw [if_neg htol] at hp
          by_cases hd : env.dumpOk 0 = true
          · simp only [hd, if_true] at hp
            obtain rfl := Option.some.inj hp
            refine storeSpaced_update _ _ _ hs ?_
            refine spaced_insert e θ _ (hs k e hk) ?_
            intro p hpmem
            exact far_of_argmin θ A (e.map Prod.fst) hA htol p.1
              (List.mem_map_of_mem _ hpmem)
          · simp only [hd, Bool.false_eq_true, if_false, exceptRebuild] at hp
            by_cases hd1 : env.dumpOk ([false] : List Bool).length = true
            · rw [if_pos hd1] at hp
              obtain rfl := Option.some.inj hp
              exact storeSpaced_update _ _ _ hs (spaced_singleton _ _)
            · rw [if_neg hd1] at hp
              simp at hp

/-- C9 witness: starting from a spaced store holding angle 10, a tolerance
miss at angle 50 persists a store that is again spaced. -/
theorem c9_spacing_preserved_witness :
    StoreSpaced (updateStore (K := Bool) (V := ℚ) (fun _ => some [(10, 5)])
      false (insertAngle [(10, 5)] 50 0)) := by
  have hA : getClosest (50 : ℚ) [(10 : ℚ)] = some 10 := by
    rw [getClosest]; exact List.argmin_singleton
  have htol : ¬ |(10 : ℚ) - 50| < 1 := by
    intro h
    rw [abs_sub_lt_iff] at h
    norm_num at h
  have hs : StoreSpaced (K := Bool) (V := ℚ) (fun _ => some [(10, 5)]) := by
    intro k e he
    obtain rfl := Option.some.inj he
    exact List.pairwise_singleton _ _
  refine c9_spacing_preserved (fun _ => 0) (fun q : ℚ => q)
    ⟨.ok (fun _ => some [(10, 5)]), fun _ => true⟩ false ⟨none, none, none⟩ 50
    (fun _ => some [(10, 5)]) _ hs rfl ?_
  rw [set_theta, if_neg (by simp), if_pos rfl]
  show (goCache (K := Bool) (R := ℚ) (V := ℚ) (fun _ => 0) (fun q => q)
    ⟨.ok (fun _ => some [(10, 5)]), fun _ => true⟩ false
    (fun _ => some [(10, 5)]) 50).persisted = _
  simp only [goCache, List.map, hA, if_neg htol]
  rfl
